import Mathlib

/-!
Shallow embedding of the AI-Video-Game mobile front-end
(`src/frontend/app/index.tsx` and `src/unnamed/part_000`).

The two TypeScript files are two revisions of a single screen: a
`GameGenerator` form component plus a decorative preview sub-component
(`GameVideoPreview` in `index.tsx`, `GamePreviewAnimation` in `part_000`).
The embedding models:

* JavaScript truthiness and the `||` operator on strings and optional
  strings (`jsTruthyStr`, `jsTruthyOpt`, `jsOrStr`, `jsOrOpt`);
* the genre/prompt data tables and `getExamplePrompts`;
* `handleGenerate` as a pure step: the component state, the network
  outcome (the fetch throwing, or responding with ok / not-ok JSON) and
  the resulting state plus the list of HTTP requests issued;
* `generateVideoScenes` as a fold over the four scene prompts, issuing
  one request per prompt and collecting the base64 scenes that the
  responses deliver;
* `generateBackgroundImage` of `GamePreviewAnimation`;
* the bullet-update interval tick and `createExplosion` of
  `GamePreviewAnimation` (positions as rationals, the two `Math.random()`
  draws of an enemy respawn supplied by an oracle);
* the d-pad handler and the enemy-movement tick as a step function on an
  arena state (the `Math.sin` wave term supplied as an arbitrary rational);
* the scene-rotation machinery of `GameVideoPreview` as a state machine
  whose events are completed generations and interval ticks.

Purely cosmetic effects (Animated.* easing loops, particles, screen
shake, trails' rendering) are outside the modelled state except where a
claim mentions them.
-/

namespace AIVG

/-- JavaScript truthiness of a string: `""` is falsy, every other string
is truthy. -/
def jsTruthyStr (s : String) : Bool := s ≠ ""

/-- JavaScript truthiness of a possibly-undefined / null string value:
`undefined`, `null` and `""` are falsy. -/
def jsTruthyOpt (o : Option String) : Bool :=
  match o with
  | none => false
  | some s => jsTruthyStr s

/-- JavaScript `a || b` where `a` is a possibly-undefined string and the
result is used as a string: returns `a` when truthy, else `b`. -/
def jsOrStr (a : Option String) (b : String) : String :=
  match a with
  | none => b
  | some s => if s = "" then b else s

/-- JavaScript `a || b` where both sides are possibly-undefined strings:
returns `a` when truthy, else `b` (which may itself be undefined). -/
def jsOrOpt (a b : Option String) : Option String :=
  if jsTruthyOpt a then a else b

/-- JavaScript `String.prototype.trim`: strip whitespace from both ends
of the string (modelled on the character list; Lean's `Char.isWhitespace`
stands in for the JS whitespace class). -/
def jsTrim (s : String) : String :=
  String.mk
    (((s.data.dropWhile Char.isWhitespace).reverse.dropWhile
      Char.isWhitespace).reverse)

/-- The genre ids of the `GENRES` table (`index.tsx` lines 263-274,
`part_000` has the same table): the only values ever passed to
`setSelectedGenre`. -/
def GENRE_IDS : List String :=
  ["shooter", "racing", "sports", "adventure", "fighting",
   "rpg", "platformer", "horror", "simulation", "puzzle"]

/-- `GENRE_PROMPTS` (`index.tsx` lines 283-334): genre-specific example
prompts, keyed by genre id. -/
def GENRE_PROMPTS : List (String × List String) :=
  [ ("shooter",
     ["A military shooter in a war-torn city with tactical combat...",
      "A sci-fi shooter on a space station fighting alien invaders...",
      "A zombie apocalypse shooter in an abandoned mall..."]),
    ("racing",
     ["A street racing game in neon-lit Tokyo at night...",
      "A Formula 1 simulator on famous world circuits...",
      "An off-road rally racing through muddy jungle trails..."]),
    ("sports",
     ["A professional football game in a packed stadium...",
      "A basketball street court 3v3 competition...",
      "A soccer World Cup final match experience..."]),
    ("adventure",
     ["An ancient ruins explorer discovering lost civilizations...",
      "A jungle adventure searching for hidden treasure...",
      "A mountaineering expedition to reach the summit..."]),
    ("fighting",
     ["A martial arts tournament with diverse fighting styles...",
      "A street fighting game in urban environments...",
      "A fantasy combat game with magical abilities..."]),
    ("rpg",
     ["A medieval knight quest to slay a dragon...",
      "A mage academy student learning powerful spells...",
      "An epic journey to save the kingdom from darkness..."]),
    ("platformer",
     ["A colorful world hopping adventure with collectibles...",
      "A robot running through futuristic floating cities...",
      "A magical forest platformer with elemental powers..."]),
    ("horror",
     ["A haunted mansion exploration with supernatural enemies...",
      "A hospital survival horror escaping experiments...",
      "A dark forest survival against unknown creatures..."]),
    ("simulation",
     ["A commercial airline pilot flying global routes...",
      "A farming simulator building the ultimate farm...",
      "A city builder creating a metropolis from scratch..."]),
    ("puzzle",
     ["A portal-based puzzle game manipulating space...",
      "A physics puzzle solving ancient temple mechanisms...",
      "A time-manipulation puzzle changing past and future..."]) ]

/-- `DEFAULT_PROMPTS` (`index.tsx` lines 336-341). -/
def DEFAULT_PROMPTS : List String :=
  ["A space shooter where you defend Earth from alien invasion...",
   "A high-speed racing game through neon city streets...",
   "An RPG adventure in a magical forest with mystical creatures...",
   "A survival horror game in an abandoned hospital..."]

/-- `GENRE_PROMPTS[g]` as JavaScript property lookup: `some` when the key
exists, `none` (undefined) otherwise. -/
def lookupGenrePrompts (g : String) : Option (List String) :=
  (GENRE_PROMPTS.find? (fun p => p.1 = g)).map (fun p => p.2)

/-- `getExamplePrompts` (`index.tsx` lines 358-363, identical in
`part_000` lines 939-944): `if (selectedGenre && GENRE_PROMPTS[selectedGenre])
return GENRE_PROMPTS[selectedGenre]; return DEFAULT_PROMPTS;`.
A JavaScript array is always truthy, so the second conjunct only tests
that the key is present. -/
def getExamplePrompts (selectedGenre : Option String) : List String :=
  if jsTruthyOpt selectedGenre then
    match lookupGenrePrompts (selectedGenre.getD "") with
    | some ps => ps
    | none => DEFAULT_PROMPTS
  else DEFAULT_PROMPTS

/-- The React state of `GameGenerator` that `handleGenerate` reads or
writes (`index.tsx` lines 344-352; `part_000` lines 925-933 is
identical). The generated-game response object is opaque JSON passed
through to display; it is modelled as an uninterpreted `String` payload. -/
structure GeneratorState where
  selectedGenre : Option String
  prompt : String
  characterDescription : String
  controlScheme : String
  targetPlatform : String
  isGenerating : Bool
  generatedGame : Option String
  showPreview : Bool
  error : Option String
deriving Repr, DecidableEq

/-- The JSON body `handleGenerate` posts to `/api/games/generate`
(`index.tsx` lines 396-402). -/
structure GenRequestBody where
  prompt : String
  genre : String
  character_description : String
  control_scheme : String
  target_platform : String
deriving Repr, DecidableEq

/-- One issued HTTP POST: the full URL it is sent to and its JSON body. -/
structure GenRequest where
  url : String
  body : GenRequestBody
deriving Repr, DecidableEq

/-- What the awaited `fetch` + `response.json()` of `handleGenerate`
amounts to: either the awaited call throws (network failure, invalid
JSON, ...) carrying a possibly-absent `err.message`, or it yields a
parsed response with `response.ok`, the JSON `detail` field (absent or a
string) and the opaque remaining payload. -/
inductive GenOutcome where
  | throws (message : Option String)
  | responds (ok : Bool) (detail : Option String) (payload : String)
deriving Repr, DecidableEq

/-- Result of one `handleGenerate` run: the requests it issued (in
order) and the final component state. -/
structure GenerateResult where
  requests : List GenRequest
  state : GeneratorState
deriving Repr, DecidableEq

/-- `handleGenerate` of `index.tsx` lines 383-424, as a pure step from
the pre-state and the network outcome to the issued requests and the
post-state.

* validation: `if (!selectedGenre || !prompt.trim())` sets the error
  banner and returns without touching anything else;
* otherwise `setIsGenerating(true); setError(null)`, one POST to
  `API_URL + "/api/games/generate"` with the trimmed prompt, genre,
  `characterDescription.trim() || 'A brave hero'`, control scheme and
  target platform;
* a not-ok response throws `new Error(data.detail || 'Failed to generate
  game')`; the catch sets the error to `err.message || 'Failed to
  generate game'`; a successful response stores the payload and shows
  the preview; the `finally` resets `isGenerating`. -/
def handleGenerate (apiUrl : String) (s : GeneratorState)
    (outcome : GenOutcome) : GenerateResult :=
  if ¬ (jsTruthyOpt s.selectedGenre ∧ jsTruthyStr (jsTrim s.prompt)) then
    { requests := [],
      state := { s with
        error := some "Please select a genre and enter a game description" } }
  else
    let s1 := { s with isGenerating := true, error := none }
    let req : GenRequest :=
      { url := apiUrl ++ "/api/games/generate",
        body :=
          { prompt := jsTrim s.prompt,
            genre := s.selectedGenre.getD "",
            character_description :=
              jsOrStr (some (jsTrim s.characterDescription)) "A brave hero",
            control_scheme := s.controlScheme,
            target_platform := s.targetPlatform } }
    match outcome with
    | .throws message =>
        { requests := [req],
          state := { s1 with
            error := some (jsOrStr message "Failed to generate game"),
            isGenerating := false } }
    | .responds ok detail payload =>
        if ok then
          { requests := [req],
            state := { s1 with
              generatedGame := some payload,
              showPreview := true,
              isGenerating := false } }
        else
          let thrown := jsOrStr detail "Failed to generate game"
          { requests := [req],
            state := { s1 with
              error := some (jsOrStr (some thrown) "Failed to generate game"),
              isGenerating := false } }

/-- The `initial_scene` sub-object of a generated game schema; every
field the preview components read is optional (`?.` chains in the
source). -/
structure InitialScene where
  setting : Option String
  player_action : Option String
  mechanic : Option String
  success_outcome : Option String
deriving Repr, DecidableEq

/-- The `main_character` sub-object of a generated game schema. -/
structure MainCharacter where
  name : Option String
  description : Option String
deriving Repr, DecidableEq

/-- The parts of `gameData.schema` that `GameVideoPreview` and
`GamePreviewAnimation` read. -/
structure GameSchema where
  initial_scene : Option InitialScene
  main_character : Option MainCharacter
deriving Repr, DecidableEq

/-- The `scenePrompts` array built at the top of `generateVideoScenes`
(`index.tsx` lines 45-62): four description/action pairs derived from the
schema with `||` fallbacks. -/
def scenePrompts (schema : GameSchema) (prompt : String) :
    List (String × String) :=
  [ ("Opening shot: " ++
       jsOrStr (schema.initial_scene.bind (fun i => i.setting)) prompt,
     "establishing wide shot, character visible in environment"),
    ("Action shot: " ++
       jsOrStr (schema.initial_scene.bind (fun i => i.player_action))
         "Character in motion",
     "dynamic action pose, motion blur, dramatic angle"),
    ("Close-up: " ++
       jsOrStr (schema.main_character.bind (fun c => c.name)) "The hero" ++
       " preparing for " ++
       jsOrStr (schema.initial_scene.bind (fun i => i.mechanic)) "combat",
     "detailed character shot, intense expression, ready for action"),
    ("Gameplay moment: " ++
       jsOrStr (schema.initial_scene.bind (fun i => i.success_outcome))
         "Epic gameplay scene",
     "peak action moment, visual effects, cinematic composition") ]

/-- The JSON body posted to `/api/generate-video-scene` for one scene
(`index.tsx` lines 71-79), together with the URL the fetch targets. -/
structure SceneRequest where
  url : String
  genre : String
  scene_description : String
  character_description : Option String
  action : String
  scene_number : Nat
  total_scenes : Nat
  user_prompt : String
deriving Repr, DecidableEq

/-- The parsed JSON of one scene response: `success`, the optional
base64 `image_data` and `mime_type`. -/
structure SceneResponse where
  success : Bool
  image_data : Option String
  mime_type : String
deriving Repr, DecidableEq

/-- Network outcome of one scene fetch: the awaited call throws, or a
parsed JSON response arrives. -/
inductive SceneOutcome where
  | throws
  | responds (r : SceneResponse)
deriving Repr, DecidableEq

/-- The request `generateVideoScenes` issues for loop index `i`
(0-based): `scene_number: i + 1`, `total_scenes: scenePrompts.length`,
the description/action pair of `scenePrompts[i]`, and
`characterDescription || gameData.schema.main_character?.description`. -/
def mkSceneRequest (apiUrl genre : String) (schema : GameSchema)
    (prompt : String) (characterDescription : Option String) (i : Nat) :
    SceneRequest :=
  let prompts := scenePrompts schema prompt
  { url := apiUrl ++ "/api/generate-video-scene",
    genre := genre,
    scene_description := (prompts.getD i ("", "")).1,
    character_description :=
      jsOrOpt characterDescription
        (schema.main_character.bind (fun c => c.description)),
    action := (prompts.getD i ("", "")).2,
    scene_number := i + 1,
    total_scenes := prompts.length,
    user_prompt := prompt }

/-- The data URI pushed onto `newScenes` for a successful scene:
`data:<mime_type>;base64,<image_data>` (`index.tsx` line 84). -/
def sceneDataUri (r : SceneResponse) : String :=
  "data:" ++ r.mime_type ++ ";base64," ++ r.image_data.getD ""

/-- One iteration of the `for` loop of `generateVideoScenes`
(`index.tsx` lines 64-92): the request for scene `i` is always issued;
`newScenes` grows exactly when the response JSON has truthy `success`
and truthy (non-empty, present) `image_data`; a thrown fetch is caught
and only logged. -/
def videoSceneStep (apiUrl genre : String) (schema : GameSchema)
    (prompt : String) (characterDescription : Option String)
    (net : Nat → SceneOutcome)
    (acc : List SceneRequest × List String) (i : Nat) :
    List SceneRequest × List String :=
  let req := mkSceneRequest apiUrl genre schema prompt characterDescription i
  match net i with
  | .throws => (acc.1 ++ [req], acc.2)
  | .responds r =>
      if r.success ∧ jsTruthyOpt r.image_data then
        (acc.1 ++ [req], acc.2 ++ [sceneDataUri r])
      else
        (acc.1 ++ [req], acc.2)

/-- Result of one `generateVideoScenes` run: the requests issued in
order, the collected `newScenes`, whether `setSceneImages` /
`startSceneRotation` ran (and with how many scenes), and the error
banner. -/
structure VideoScenesResult where
  requests : List SceneRequest
  newScenes : List String
  sceneImagesSet : Option (List String)
  rotationStartedWith : Option Nat
  error : Option String
deriving Repr, DecidableEq

/-- The code after the loop of `generateVideoScenes` (`index.tsx`
lines 94-102): a non-empty `newScenes` is stored via `setSceneImages`
and the rotation starts with its length; otherwise the placeholder
error is set. -/
def sceneRunOutcome (run : List SceneRequest × List String) :
    VideoScenesResult :=
  if run.2.length > 0 then
    { requests := run.1, newScenes := run.2,
      sceneImagesSet := some run.2,
      rotationStartedWith := some run.2.length,
      error := none }
  else
    { requests := run.1, newScenes := run.2,
      sceneImagesSet := none, rotationStartedWith := none,
      error := some "Could not generate video scenes. Using placeholder." }

/-- `generateVideoScenes` (`index.tsx` lines 37-103) as a pure function
of the component inputs and a network oracle giving each scene fetch's
outcome: the `for` loop over `scenePrompts` followed by the post-loop
storing / error code. The guard `if (!gameData?.schema || isGenerating)
return;` is the early return modelled by `generateVideoScenesGuarded`
below; this function is the body that runs once the guard passes. -/
def generateVideoScenes (apiUrl genre : String) (schema : GameSchema)
    (prompt : String) (characterDescription : Option String)
    (net : Nat → SceneOutcome) : VideoScenesResult :=
  sceneRunOutcome
    ((List.range (scenePrompts schema prompt).length).foldl
      (videoSceneStep apiUrl genre schema prompt characterDescription net)
      ([], []))

/-- `generateVideoScenes` including its entry guard (`index.tsx` line
38): with no schema or while already generating it returns immediately,
issuing nothing. -/
def generateVideoScenesGuarded (apiUrl genre : String)
    (schema : Option GameSchema) (isGenerating : Bool) (prompt : String)
    (characterDescription : Option String) (net : Nat → SceneOutcome) :
    Option VideoScenesResult :=
  match schema with
  | none => none
  | some sch =>
      if isGenerating then none
      else some (generateVideoScenes apiUrl genre sch prompt
        characterDescription net)

/-- The JSON body `generateBackgroundImage` of `GamePreviewAnimation`
posts to `/api/generate-preview-image` (`part_000` lines 67-75), with
the URL the fetch targets. -/
structure PreviewImageRequest where
  url : String
  genre : String
  scene_description : String
  character_description : String
  style : String
deriving Repr, DecidableEq

/-- `generateBackgroundImage` (`part_000` lines 62-87), restricted to
the request it issues: with a truthy `bgImage`, while loading, or
without a truthy `gameData?.schema?.initial_scene?.setting` it returns
early issuing nothing; otherwise it issues exactly one POST. -/
def generateBackgroundImage (apiUrl : String) (genre : Option String)
    (gameSchema : Option GameSchema) (bgImage : Option String)
    (isLoadingBg : Bool) : Option PreviewImageRequest :=
  if jsTruthyOpt bgImage ∨ isLoadingBg ∨
      ¬ jsTruthyOpt
        ((gameSchema.bind (fun s => s.initial_scene)).bind
          (fun i => i.setting)) then
    none
  else
    some
      { url := apiUrl ++ "/api/generate-preview-image",
        genre := jsOrStr genre "action",
        scene_description :=
          jsOrStr
            ((gameSchema.bind (fun s => s.initial_scene)).bind
              (fun i => i.setting))
            "Epic game environment",
        character_description :=
          jsOrStr
            ((gameSchema.bind (fun s => s.main_character)).bind
              (fun c => c.description))
            "Heroic warrior",
        style := "high-fidelity 3D realistic" }

/-- A bullet of `GamePreviewAnimation` (`part_000` line 31): id,
position, and the trail of recent y coordinates. Positions are modelled
as rationals (the source's number arithmetic here is integral or plain
additions, never precision-critical). -/
structure Bullet where
  id : Nat
  x : ℚ
  y : ℚ
  trail : List ℚ
deriving Repr, DecidableEq

/-- An explosion entry (`part_000` line 41). -/
structure Explosion where
  id : Nat
  x : ℚ
  y : ℚ
  scale : ℚ
deriving Repr, DecidableEq

/-- The state the bullet interval of `GamePreviewAnimation` reads or
writes (`part_000` lines 174-212): bullets, score, enemy position and
the explosion list. Particle effects and screen shake are cosmetic and
outside the modelled state. -/
structure PreviewTickState where
  bullets : List Bullet
  score : Nat
  enemyPos : ℚ × ℚ
  explosions : List Explosion
deriving Repr, DecidableEq

/-- The first `setBullets` update of the bullet interval (`part_000`
lines 177-181): move the bullet up by 12 and append its previous y to
the trail, keeping the last three entries (`trail.slice(-3)`). -/
def moveBullet (b : Bullet) : Bullet :=
  { b with
    y := b.y - 12,
    trail := b.trail.drop (b.trail.length - 3) ++ [b.y] }

/-- The collision test of the bullet interval (`part_000` lines
188-193): strict inequalities on both axes against the enemy hit box. -/
def inHitBox (enemyPos : ℚ × ℚ) (b : Bullet) : Bool :=
  b.x > enemyPos.1 - 20 ∧ b.x < enemyPos.1 + 50 ∧
  b.y < enemyPos.2 + 40 ∧ b.y > enemyPos.2 - 10

/-- The explosion entry `createExplosion` appends (`part_000` lines
251-253): id from `Date.now()`, the given position, initial scale 0.1.
The twelve particles it also spawns are cosmetic and outside the
modelled state. -/
def createExplosionEntry (now : Nat) (x y : ℚ) : Explosion :=
  { id := now, x := x, y := y, scale := (1 : ℚ) / 10 }

/-- The enemy respawn position on a hit (`part_000` lines 197-200):
`x = Math.random() * (GAME_WIDTH - 100) + 50`,
`y = Math.random() * 40 + 20`, with the two `Math.random()` draws
supplied as `r`. -/
def respawnEnemy (gw : ℚ) (r : ℚ × ℚ) : ℚ × ℚ :=
  (r.1 * (gw - 100) + 50, r.2 * 40 + 20)

/-- One firing of the bullet interval (`part_000` lines 174-212):
bullets move and are culled at `y <= -30`; then every moved bullet
inside the enemy hit box scores 150, appends an explosion at the enemy
position offset by (15, 15), and respawns the enemy. `gw` is
`GAME_WIDTH`, `now` the shared `Date.now()` of this tick, and `rng k`
the pair of `Math.random()` draws consumed by the k-th hit's respawn;
the enemy position after the tick is the respawn of the last hit. -/
def bulletTick (gw : ℚ) (now : Nat) (rng : Nat → ℚ × ℚ)
    (st : PreviewTickState) : PreviewTickState :=
  let moved := (st.bullets.map moveBullet).filter (fun b => b.y > -30)
  let hits := moved.filter (inHitBox st.enemyPos)
  { bullets := moved,
    score := st.score + 150 * hits.length,
    enemyPos :=
      if hits.length = 0 then st.enemyPos
      else respawnEnemy gw (rng (hits.length - 1)),
    explosions := st.explosions ++
      hits.map (fun _ =>
        createExplosionEntry now (st.enemyPos.1 + 15) (st.enemyPos.2 + 15)) }

/-- The positional state of `GamePreviewAnimation` that the d-pad
handler and the enemy interval touch (`part_000` lines 28-37). -/
structure ArenaState where
  charX : ℚ
  charY : ℚ
  enemyX : ℚ
  enemyY : ℚ
  enemyDir : ℚ
deriving Repr, DecidableEq

/-- Initial positions (`part_000` lines 28-29 and 36-37):
character at (140, 120), enemy at (220, 40), direction 1. -/
def arenaInit : ArenaState :=
  { charX := 140, charY := 120, enemyX := 220, enemyY := 40, enemyDir := 1 }

/-- `handleDpadPress` (`part_000` lines 300-318): clamped moves by
`MOVE_SPEED = 12`, or `BOOST_SPEED = 22` while boosting;
`GAME_HEIGHT = 220` so the down clamp is `GAME_HEIGHT - 60 = 160`.
`gw` is `GAME_WIDTH`. An unknown direction string falls through the
switch and moves nothing. -/
def handleDpadPress (gw : ℚ) (direction : String) (isBoosting : Bool)
    (st : ArenaState) : ArenaState :=
  let speed : ℚ := if isBoosting then 22 else 12
  if direction = "up" then { st with charY := max 40 (st.charY - speed) }
  else if direction = "down" then
    { st with charY := min (220 - 60) (st.charY + speed) }
  else if direction = "left" then
    { st with charX := max 20 (st.charX - speed) }
  else if direction = "right" then
    { st with charX := min (gw - 50) (st.charX + speed) }
  else st

/-- One firing of the enemy interval (`part_000` lines 154-171): the
enemy drifts by `direction * 3`, bounces at the `[40, GAME_WIDTH - 60]`
walls, and its y follows a wave term `Math.sin(Date.now() / 500) * 0.5`
(passed in as `wave`) clamped to `[20, 80]`. -/
def enemyTickStep (gw : ℚ) (wave : ℚ) (st : ArenaState) : ArenaState :=
  let newX := st.enemyX + st.enemyDir * 3
  let newY := st.enemyY + wave
  let bounced :=
    if newX > gw - 60 then ((-1 : ℚ), gw - 60)
    else if newX < 40 then ((1 : ℚ), (40 : ℚ))
    else (st.enemyDir, newX)
  { st with
    enemyDir := bounced.1,
    enemyX := bounced.2,
    enemyY := max 20 (min 80 newY) }

/-- An event touching the arena positions: a d-pad press (direction
string and the boost flag in force), or one enemy-movement tick with
its wave term. -/
inductive ArenaEvent where
  | dpad (direction : String) (isBoosting : Bool)
  | enemyTick (wave : ℚ)

/-- Apply one arena event. -/
def arenaStep (gw : ℚ) (st : ArenaState) (e : ArenaEvent) : ArenaState :=
  match e with
  | .dpad direction isBoosting => handleDpadPress gw direction isBoosting st
  | .enemyTick wave => enemyTickStep gw wave st

/-- Run a sequence of arena events from the initial positions. -/
def arenaRun (gw : ℚ) (events : List ArenaEvent) : ArenaState :=
  events.foldl (arenaStep gw) arenaInit

/-- One live rotation interval of `GameVideoPreview`: the `totalScenes`
argument `startSceneRotation` closed over and the closure-local
`sceneIndex` (`index.tsx` lines 106-138). `startSceneRotation` returns
a cleanup closure but line 96 discards it, so started intervals are
never cleared and accumulate. -/
structure RotationInterval where
  totalScenes : Nat
  sceneIndex : Nat
deriving Repr, DecidableEq

/-- The scene-rotation state of `GameVideoPreview`: the displayed image
list, `currentScene`, and every interval started so far. -/
structure VideoPreviewUI where
  sceneImages : List String
  currentScene : Nat
  intervals : List RotationInterval
deriving Repr, DecidableEq

/-- Events of the rotation machinery: a run of `generateVideoScenes`
completes (with the scenes it collected), or the k-th live interval's
`rotateScene` callback fires. -/
inductive PreviewEvent where
  | generationDone (newScenes : List String)
  | rotateTick (k : Nat)

/-- Apply one rotation event.

* `generationDone`: `index.tsx` lines 94-99 - a non-empty scene list is
  stored via `setSceneImages` and `startSceneRotation(newScenes.length)`
  registers a fresh interval with `sceneIndex = 0`; `currentScene` is
  not reset. An empty list only sets the error banner.
* `rotateTick k`: `index.tsx` lines 109-134 - the interval advances its
  local `sceneIndex` to `(sceneIndex + 1) % totalScenes` and stores it
  in `currentScene`. -/
def previewStep (st : VideoPreviewUI) (e : PreviewEvent) : VideoPreviewUI :=
  match e with
  | .generationDone newScenes =>
      if newScenes.length > 0 then
        { st with
          sceneImages := newScenes,
          intervals := st.intervals ++
            [{ totalScenes := newScenes.length, sceneIndex := 0 }] }
      else st
  | .rotateTick k =>
      match st.intervals.get? k with
      | none => st
      | some iv =>
          let idx := (iv.sceneIndex + 1) % iv.totalScenes
          { st with
            currentScene := idx,
            intervals := st.intervals.set k { iv with sceneIndex := idx } }

/-- `GameVideoPreview` mounts with no scenes, `currentScene = 0` and no
interval (`index.tsx` lines 27-28). -/
def previewInit : VideoPreviewUI :=
  { sceneImages := [], currentScene := 0, intervals := [] }

/-- Run a sequence of rotation events from the mount state. -/
def previewRun (events : List PreviewEvent) : VideoPreviewUI :=
  events.foldl previewStep previewInit

namespace Legacy

/-- `handleGenerate` of the earlier revision, `part_000` lines 964-1005,
translated independently from that file (its text coincides with the
later revision's). -/
def handleGenerate (apiUrl : String) (s : GeneratorState)
    (outcome : GenOutcome) : GenerateResult :=
  if ¬ (jsTruthyOpt s.selectedGenre ∧ jsTruthyStr (jsTrim s.prompt)) then
    { requests := [],
      state := { s with
        error := some "Please select a genre and enter a game description" } }
  else
    let s1 := { s with isGenerating := true, error := none }
    let req : GenRequest :=
      { url := apiUrl ++ "/api/games/generate",
        body :=
          { prompt := jsTrim s.prompt,
            genre := s.selectedGenre.getD "",
            character_description :=
              jsOrStr (some (jsTrim s.characterDescription)) "A brave hero",
            control_scheme := s.controlScheme,
            target_platform := s.targetPlatform } }
    match outcome with
    | .throws message =>
        { requests := [req],
          state := { s1 with
            error := some (jsOrStr message "Failed to generate game"),
            isGenerating := false } }
    | .responds ok detail payload =>
        if ok then
          { requests := [req],
            state := { s1 with
              generatedGame := some payload,
              showPreview := true,
              isGenerating := false } }
        else
          let thrown := jsOrStr detail "Failed to generate game"
          { requests := [req],
            state := { s1 with
              error := some (jsOrStr (some thrown) "Failed to generate game"),
              isGenerating := false } }

end Legacy

/-- A concrete reachable `GameGenerator` state used to instantiate the
theorems below: the shooter genre is selected and a prompt typed. -/
def sampleGenState : GeneratorState :=
  { selectedGenre := some "shooter", prompt := " Space battle ",
    characterDescription := "", controlScheme := "dpad_buttons",
    targetPlatform := "javascript", isGenerating := false,
    generatedGame := none, showPreview := false, error := none }

/-- A concrete generated-game schema used to instantiate the theorems
below. -/
def sampleSchema : GameSchema :=
  { initial_scene := some
      { setting := some "A ruined city",
        player_action := some "Sprint through rubble",
        mechanic := some "combat",
        success_outcome := some "The hero escapes" },
    main_character := some
      { name := some "Rex",
        description := some "A scarred veteran" } }

/-- The bullets a bullet-interval tick registers as hits: the moved,
surviving bullets lying inside the enemy hit box (the `forEach`
traversal of `part_000` lines 186-209 runs on the updated bullet
list). -/
def tickHits (st : PreviewTickState) : List Bullet :=
  ((st.bullets.map moveBullet).filter (fun b => b.y > -30)).filter
    (inHitBox st.enemyPos)

/-- A concrete tick state with one bullet about to hit the enemy: after
moving (y := 62 - 12 = 50) the bullet at (225, 50) is inside the hit
box of the enemy at (220, 40). -/
def hitSample : PreviewTickState :=
  { bullets := [{ id := 0, x := 225, y := 62, trail := [] }],
    score := 0,
    enemyPos := (220, 40),
    explosions := [] }

/-- The positional invariant claimed for `GamePreviewAnimation`:
character x in [20, GAME_WIDTH - 50], character y in
[40, GAME_HEIGHT - 60] = [40, 160], enemy x in [40, GAME_WIDTH - 60],
enemy y in [20, 80]. -/
def arenaInv (gw : ℚ) (st : ArenaState) : Prop :=
  20 ≤ st.charX ∧ st.charX ≤ gw - 50 ∧
  40 ≤ st.charY ∧ st.charY ≤ 160 ∧
  40 ≤ st.enemyX ∧ st.enemyX ≤ gw - 60 ∧
  20 ≤ st.enemyY ∧ st.enemyY ≤ 80

/-! ## Theorems -/

/-- `jsOrStr` never returns the empty string when its default is
non-empty. -/
theorem jsOrStr_ne_empty (a : Option String) (b : String) (hb : b ≠ "") :
    jsOrStr a b ≠ "" := by
  cases a with
  | none => exact hb
  | some s =>
      by_cases hs : s = ""
      · simp [jsOrStr, hs]
        exact hb
      · simp [jsOrStr, hs]

/-- Re-wrapping a `jsOrStr` result through `jsOrStr` with the same
non-empty default changes nothing (the `throw new Error(detail || d)` /
`err.message || d` chain collapses). -/
theorem jsOrStr_absorb (a : Option String) (b : String) (hb : b ≠ "") :
    jsOrStr (some (jsOrStr a b)) b = jsOrStr a b := by
  have h := jsOrStr_ne_empty a b hb
  simp [jsOrStr, h]
  intro hc
  exact absurd hc h

/-- **C3.** For every value of `selectedGenre`, `getExamplePrompts`
returns the genre-specific list `GENRE_PROMPTS[selectedGenre]` exactly
when a genre is selected and that genre has an entry in
`GENRE_PROMPTS`, and returns `DEFAULT_PROMPTS` otherwise (in particular
when no genre is selected). -/
theorem getExamplePrompts_genre_table (o : Option String) :
    (∀ g ps, o = some g → lookupGenrePrompts g = some ps →
      getExamplePrompts o = ps) ∧
    ((o = none ∨ ∃ g, o = some g ∧ lookupGenrePrompts g = none) →
      getExamplePrompts o = DEFAULT_PROMPTS) := by
  constructor
  · intro g ps ho hl
    subst ho
    have hg : g ≠ "" := by
      intro h
      subst h
      rw [show lookupGenrePrompts "" = none from rfl] at hl
      exact Option.noConfusion hl
    simp [getExamplePrompts, jsTruthyOpt, jsTruthyStr, hg, hl]
  · rintro (rfl | ⟨g, rfl, hl⟩)
    · rfl
    · by_cases hg : g = ""
      · simp [getExamplePrompts, jsTruthyOpt, jsTruthyStr, hg]
      · simp [getExamplePrompts, jsTruthyOpt, jsTruthyStr, hg, hl]

/-- Witness for C3: the rpg genre is selected and has a table entry, so
its three prompts are returned. -/
theorem getExamplePrompts_genre_table_witness :
    lookupGenrePrompts "rpg" = some
      ["A medieval knight quest to slay a dragon...",
       "A mage academy student learning powerful spells...",
       "An epic journey to save the kingdom from darkness..."] ∧
    getExamplePrompts (some "rpg") =
      ["A medieval knight quest to slay a dragon...",
       "A mage academy student learning powerful spells...",
       "An epic journey to save the kingdom from darkness..."] :=
  ⟨rfl,
    (getExamplePrompts_genre_table (some "rpg")).1 "rpg"
      ["A medieval knight quest to slay a dragon...",
       "A mage academy student learning powerful spells...",
       "An epic journey to save the kingdom from darkness..."] rfl rfl⟩

/-- **C10.** The `GameGenerator` of the earlier revision (`part_000`)
and of the later revision (`index.tsx`) are behaviourally equivalent at
the generation interface: for the same state and network outcome their
`handleGenerate` functions perform the same validation and produce the
same requests (same endpoint, identical body) and the same post-state. -/
theorem handleGenerate_revisions_agree (apiUrl : String)
    (s : GeneratorState) (o : GenOutcome) :
    Legacy.handleGenerate apiUrl s o = handleGenerate apiUrl s o := rfl

/-- **C1.** For every reachable `GameGenerator` state (the selected
genre is `null` or one of the `GENRES` ids), `handleGenerate` issues
exactly one POST to `API_URL + "/api/games/generate"` carrying the
trimmed prompt, the selected genre, the control scheme and the target
platform if and only if a genre is selected and the prompt is non-empty
after trimming; otherwise it issues no request and sets the error state
to the validation message. -/
theorem handleGenerate_validation_gate (apiUrl : String)
    (s : GeneratorState) (o : GenOutcome)
    (hg : s.selectedGenre = none ∨ ∃ g ∈ GENRE_IDS, s.selectedGenre = some g) :
    ((handleGenerate apiUrl s o).requests ≠ [] ↔
      (s.selectedGenre.isSome ∧ jsTrim s.prompt ≠ "")) ∧
    ((s.selectedGenre.isSome ∧ jsTrim s.prompt ≠ "") →
      (handleGenerate apiUrl s o).requests =
        [{ url := apiUrl ++ "/api/games/generate",
           body :=
             { prompt := jsTrim s.prompt,
               genre := s.selectedGenre.getD "",
               character_description :=
                 jsOrStr (some (jsTrim s.characterDescription)) "A brave hero",
               control_scheme := s.controlScheme,
               target_platform := s.targetPlatform } }]) ∧
    (¬ (s.selectedGenre.isSome ∧ jsTrim s.prompt ≠ "") →
      (handleGenerate apiUrl s o).requests = [] ∧
      (handleGenerate apiUrl s o).state.error =
        some "Please select a genre and enter a game description") := by
  rcases hg with hnone | ⟨g, hgm, hsome⟩
  · refine ⟨?_, ?_, ?_⟩
    · simp [handleGenerate, hnone, jsTruthyOpt]
    · rintro ⟨hs, -⟩
      rw [hnone] at hs
      exact absurd hs (by simp)
    · intro
      simp [handleGenerate, hnone, jsTruthyOpt]
  · have hge : g ≠ "" := by
      have hall : ∀ x ∈ GENRE_IDS, x ≠ "" := by decide
      exact hall g hgm
    by_cases hp : jsTrim s.prompt = ""
    · refine ⟨?_, ?_, ?_⟩
      · simp [handleGenerate, hsome, jsTruthyOpt, jsTruthyStr, hp]
      · rintro ⟨-, hne⟩
        exact absurd hp hne
      · intro
        simp [handleGenerate, hsome, jsTruthyOpt, jsTruthyStr, hp]
    · have hreq : (handleGenerate apiUrl s o).requests =
          [{ url := apiUrl ++ "/api/games/generate",
             body :=
               { prompt := jsTrim s.prompt,
                 genre := s.selectedGenre.getD "",
                 character_description :=
                   jsOrStr (some (jsTrim s.characterDescription))
                     "A brave hero",
                 control_scheme := s.controlScheme,
                 target_platform := s.targetPlatform } }] := by
        cases o with
        | throws m =>
            simp [handleGenerate, hsome, jsTruthyOpt, jsTruthyStr, hge, hp]
        | responds ok detail payload =>
            cases ok <;>
              simp [handleGenerate, hsome, jsTruthyOpt, jsTruthyStr, hge, hp]

      refine ⟨?_, fun _ => hreq, ?_⟩
      · rw [hreq]
        simp [hsome, hp]
      · rintro hn
        exact absurd ⟨by simp [hsome], hp⟩ hn

/-- Witness for C1: at the sample state (shooter selected, non-blank
prompt) the single generation request is issued. -/
theorem handleGenerate_validation_gate_witness :
    (sampleGenState.selectedGenre = none ∨
      ∃ g ∈ GENRE_IDS, sampleGenState.selectedGenre = some g) ∧
    (((handleGenerate "u" sampleGenState
          (GenOutcome.responds true none "{}")).requests ≠ [] ↔
        (sampleGenState.selectedGenre.isSome ∧
          jsTrim sampleGenState.prompt ≠ "")) ∧
      ((sampleGenState.selectedGenre.isSome ∧
          jsTrim sampleGenState.prompt ≠ "") →
        (handleGenerate "u" sampleGenState
            (GenOutcome.responds true none "{}")).requests =
          [{ url := "u" ++ "/api/games/generate",
             body :=
               { prompt := jsTrim sampleGenState.prompt,
                 genre := sampleGenState.selectedGenre.getD "",
                 character_description :=
                   jsOrStr (some (jsTrim sampleGenState.characterDescription))
                     "A brave hero",
                 control_scheme := sampleGenState.controlScheme,
                 target_platform := sampleGenState.targetPlatform } }]) ∧
      (¬ (sampleGenState.selectedGenre.isSome ∧
          jsTrim sampleGenState.prompt ≠ "") →
        (handleGenerate "u" sampleGenState
            (GenOutcome.responds true none "{}")).requests = [] ∧
        (handleGenerate "u" sampleGenState
            (GenOutcome.responds true none "{}")).state.error =
          some "Please select a genre and enter a game description")) :=
  ⟨by decide,
    handleGenerate_validation_gate "u" sampleGenState
      (GenOutcome.responds true none "{}") (by decide)⟩

/-- Counterexample to C2 as stated: when the fetch itself throws, the
error banner is set to the thrown error's own message (here the runtime
message "Network request failed"), which is neither a response `detail`
field (no response exists) nor the fallback string "Failed to generate
game". -/
theorem handleGenerate_failure_banner_counterexample :
    (handleGenerate "u" sampleGenState
        (GenOutcome.throws (some "Network request failed"))).state.error =
      some "Network request failed" ∧
    some "Network request failed" ≠ some "Failed to generate game" := by
  constructor
  · decide
  · decide

/-- **C2 (amended).** For every execution of `handleGenerate` that
reaches the fetch, if the fetch throws or the response is not ok the
error state ends up a single non-null, non-empty message — the thrown
error's message when the fetch throws and its message is non-empty, the
response's `detail` field when present and non-empty, and "Failed to
generate game" otherwise — the generated-game state and preview
visibility are unchanged, and `isGenerating` is reset to `false`
whether the call succeeds or fails. -/
theorem handleGenerate_failure_banner (apiUrl : String)
    (s : GeneratorState) (o : GenOutcome)
    (hv : jsTruthyOpt s.selectedGenre = true ∧
      jsTruthyStr (jsTrim s.prompt) = true) :
    (handleGenerate apiUrl s o).state.isGenerating = false ∧
    (∀ m, o = GenOutcome.throws m →
      (handleGenerate apiUrl s o).state.error =
        some (jsOrStr m "Failed to generate game") ∧
      jsOrStr m "Failed to generate game" ≠ "" ∧
      (handleGenerate apiUrl s o).state.generatedGame = s.generatedGame ∧
      (handleGenerate apiUrl s o).state.showPreview = s.showPreview) ∧
    (∀ detail payload, o = GenOutcome.responds false detail payload →
      (handleGenerate apiUrl s o).state.error =
        some (jsOrStr detail "Failed to generate game") ∧
      jsOrStr detail "Failed to generate game" ≠ "" ∧
      (handleGenerate apiUrl s o).state.generatedGame = s.generatedGame ∧
      (handleGenerate apiUrl s o).state.showPreview = s.showPreview) := by
  obtain ⟨h1, h2⟩ := hv
  refine ⟨?_, ?_, ?_⟩
  · cases o with
    | throws m => simp [handleGenerate, h1, h2]
    | responds ok detail payload =>
        cases ok <;> simp [handleGenerate, h1, h2]
  · rintro m rfl
    refine ⟨by simp [handleGenerate, h1, h2], ?_, ?_, ?_⟩
    · exact jsOrStr_ne_empty m _ (by decide)
    · simp [handleGenerate, h1, h2]
    · simp [handleGenerate, h1, h2]
  · rintro detail payload rfl
    refine ⟨?_, ?_, ?_, ?_⟩
    · simp [handleGenerate, h1, h2,
        jsOrStr_absorb detail "Failed to generate game" (by decide)]
    · exact jsOrStr_ne_empty detail _ (by decide)
    · simp [handleGenerate, h1, h2]
    · simp [handleGenerate, h1, h2]

/-- Witness for C2 (amended): a not-ok response with a `detail` field
at the sample state. -/
theorem handleGenerate_failure_banner_witness :
    (jsTruthyOpt sampleGenState.selectedGenre = true ∧
      jsTruthyStr (jsTrim sampleGenState.prompt) = true) ∧
    ((handleGenerate "u" sampleGenState
        (GenOutcome.responds false (some "Bad prompt") "{}")).state.isGenerating
        = false ∧
    (∀ m, GenOutcome.responds false (some "Bad prompt") "{}" =
        GenOutcome.throws m →
      (handleGenerate "u" sampleGenState
          (GenOutcome.responds false (some "Bad prompt") "{}")).state.error =
        some (jsOrStr m "Failed to generate game") ∧
      jsOrStr m "Failed to generate game" ≠ "" ∧
      (handleGenerate "u" sampleGenState
          (GenOutcome.responds false (some "Bad prompt") "{}")).state.generatedGame
        = sampleGenState.generatedGame ∧
      (handleGenerate "u" sampleGenState
          (GenOutcome.responds false (some "Bad prompt") "{}")).state.showPreview
        = sampleGenState.showPreview) ∧
    (∀ detail payload,
      GenOutcome.responds false (some "Bad prompt") "{}" =
        GenOutcome.responds false detail payload →
      (handleGenerate "u" sampleGenState
          (GenOutcome.responds false (some "Bad prompt") "{}")).state.error =
        some (jsOrStr detail "Failed to generate game") ∧
      jsOrStr detail "Failed to generate game" ≠ "" ∧
      (handleGenerate "u" sampleGenState
          (GenOutcome.responds false (some "Bad prompt") "{}")).state.generatedGame
        = sampleGenState.generatedGame ∧
      (handleGenerate "u" sampleGenState
          (GenOutcome.responds false (some "Bad prompt") "{}")).state.showPreview
        = sampleGenState.showPreview)) :=
  ⟨⟨by decide, by decide⟩,
    handleGenerate_failure_banner "u" sampleGenState
      (GenOutcome.responds false (some "Bad prompt") "{}")
      ⟨by decide, by decide⟩⟩

/-- Each loop iteration of `generateVideoScenes` appends exactly one
request — the one for its index — whatever the network outcome. -/
theorem videoSceneStep_fst (apiUrl genre : String) (schema : GameSchema)
    (prompt : String) (cd : Option String) (net : Nat → SceneOutcome)
    (acc : List SceneRequest × List String) (i : Nat) :
    (videoSceneStep apiUrl genre schema prompt cd net acc i).1 =
      acc.1 ++ [mkSceneRequest apiUrl genre schema prompt cd i] := by
  cases h : net i with
  | throws => simp [videoSceneStep, h]
  | responds r =>
      simp only [videoSceneStep, h]
      split <;> rfl

/-- Each loop iteration of `generateVideoScenes` appends one collected
scene exactly when the response arrived with truthy `success` and
`image_data`. -/
theorem videoSceneStep_snd (apiUrl genre : String) (schema : GameSchema)
    (prompt : String) (cd : Option String) (net : Nat → SceneOutcome)
    (acc : List SceneRequest × List String) (i : Nat) :
    (videoSceneStep apiUrl genre schema prompt cd net acc i).2 =
      acc.2 ++
        (match net i with
         | SceneOutcome.throws => []
         | SceneOutcome.responds r =>
             if r.success = true ∧ jsTruthyOpt r.image_data = true then
               [sceneDataUri r]
             else []) := by
  cases h : net i with
  | throws => simp [videoSceneStep, h]
  | responds r =>
      simp only [videoSceneStep, h]
      split
      · rename_i hc
        simp [hc]
      · rename_i hc
        simp [hc]

/-- The request component of the `generateVideoScenes` loop is the map
of `mkSceneRequest` over the visited indices. -/
theorem foldl_videoSceneStep_fst (apiUrl genre : String)
    (schema : GameSchema) (prompt : String) (cd : Option String)
    (net : Nat → SceneOutcome) (l : List Nat)
    (acc : List SceneRequest × List String) :
    (l.foldl (videoSceneStep apiUrl genre schema prompt cd net) acc).1 =
      acc.1 ++ l.map (mkSceneRequest apiUrl genre schema prompt cd) := by
  induction l generalizing acc with
  | nil => simp
  | cons i l ih =>
      simp only [List.foldl_cons, List.map_cons]
      rw [ih, videoSceneStep_fst]
      simp

/-- The collected-scenes component of the `generateVideoScenes` loop is
the filter-map of the per-index response condition over the visited
indices. -/
theorem foldl_videoSceneStep_snd (apiUrl genre : String)
    (schema : GameSchema) (prompt : String) (cd : Option String)
    (net : Nat → SceneOutcome) (l : List Nat)
    (acc : List SceneRequest × List String) :
    (l.foldl (videoSceneStep apiUrl genre schema prompt cd net) acc).2 =
      acc.2 ++ l.filterMap (fun i =>
        match net i with
        | SceneOutcome.throws => none
        | SceneOutcome.responds r =>
            if r.success = true ∧ r.image_data.getD "" ≠ "" then
              some ("data:" ++ r.mime_type ++ ";base64," ++
                r.image_data.getD "")
            else none) := by
  induction l generalizing acc with
  | nil => simp
  | cons i l ih =>
      simp only [List.foldl_cons, List.filterMap_cons]
      rw [ih, videoSceneStep_snd]
      cases h : net i with
      | throws => simp
      | responds r =>
          by_cases hc : r.success = true ∧ jsTruthyOpt r.image_data = true

          · have hc' : r.success = true ∧ r.image_data.getD "" ≠ "" := by
              obtain ⟨h1, h2⟩ := hc
              refine ⟨h1, ?_⟩
              cases hi : r.image_data with
              | none => rw [hi] at h2; simp [jsTruthyOpt] at h2
              | some s =>
                  rw [hi] at h2
                  simp [jsTruthyOpt, jsTruthyStr] at h2
                  simpa [hi] using h2
            simp [hc, hc', sceneDataUri]
          · have hc' : ¬ (r.success = true ∧ r.image_data.getD "" ≠ "") := by
              intro hx
              apply hc
              obtain ⟨h1, h2⟩ := hx
              refine ⟨h1, ?_⟩
              cases hi : r.image_data with
              | none => rw [hi] at h2; simp at h2
              | some s =>
                  rw [hi] at h2
                  simp at h2
                  simp [jsTruthyOpt, jsTruthyStr, hi, h2]
            simp [hc, hc']

/-- The post-loop code emits no further requests: both branches pass
the accumulated request list through. -/
theorem sceneRunOutcome_requests (run : List SceneRequest × List String) :
    (sceneRunOutcome run).requests = run.1 := by
  unfold sceneRunOutcome
  split <;> rfl

/-- Both post-loop branches pass the collected scenes through. -/
theorem sceneRunOutcome_newScenes (run : List SceneRequest × List String) :
    (sceneRunOutcome run).newScenes = run.2 := by
  unfold sceneRunOutcome
  split <;> rfl

/-- The placeholder error is set exactly when no scene was collected. -/
theorem sceneRunOutcome_error_iff (run : List SceneRequest × List String) :
    ((sceneRunOutcome run).error =
        some "Could not generate video scenes. Using placeholder." ↔
      run.2 = []) := by
  unfold sceneRunOutcome
  split
  · rename_i h
    simp only []
    constructor
    · intro hx
      exact absurd hx (by simp)
    · intro hx
      rw [hx] at h
      simp at h
  · rename_i h
    have hnil : run.2 = [] := List.length_eq_zero.mp (by omega)
    simp [hnil]

/-- **C4.** Every run of `generateVideoScenes` that passes the entry
guard issues its four scene requests one after another (the request
list is in issue order), with `scene_number` taking the values 1, 2, 3,
4 in increasing order; no request is issued twice, and a failed scene
fetch does not prevent the remaining requests (the oracle `net` is
universally quantified, including throwing outcomes). -/
theorem generateVideoScenes_sequential (apiUrl genre : String)
    (schemaOpt : Option GameSchema) (isGenerating : Bool)
    (prompt : String) (cd : Option String) (net : Nat → SceneOutcome)
    (res : VideoScenesResult)
    (h : generateVideoScenesGuarded apiUrl genre schemaOpt isGenerating
      prompt cd net = some res) :
    res.requests.map (fun r => r.scene_number) = [1, 2, 3, 4] := by
  cases schemaOpt with
  | none => exact Option.noConfusion h
  | some schema =>
      cases isGenerating with
      | true => simp [generateVideoScenesGuarded] at h
      | false =>
          simp only [generateVideoScenesGuarded, if_neg, Bool.false_eq_true,
            not_false_eq_true, if_false, Option.some.injEq] at h
          subst h
          unfold generateVideoScenes
          rw [sceneRunOutcome_requests,
            show (scenePrompts schema prompt).length = 4 from rfl,
            foldl_videoSceneStep_fst,
            show List.range 4 = [0, 1, 2, 3] from rfl]
          simp [mkSceneRequest]

/-- Witness for C4: a schema is present, the component idle, and every
fetch throws; the four requests are still issued in order. -/
theorem generateVideoScenes_sequential_witness :
    generateVideoScenesGuarded "u" "shooter" (some sampleSchema) false
        "p" none (fun _ => SceneOutcome.throws) =
      some (generateVideoScenes "u" "shooter" sampleSchema "p" none
        (fun _ => SceneOutcome.throws)) ∧
    (generateVideoScenes "u" "shooter" sampleSchema "p" none
        (fun _ => SceneOutcome.throws)).requests.map
      (fun r => r.scene_number) = [1, 2, 3, 4] :=
  ⟨rfl,
    generateVideoScenes_sequential "u" "shooter" (some sampleSchema) false
      "p" none (fun _ => SceneOutcome.throws) _ rfl⟩

/-- **C5.** In every run of `generateVideoScenes`, a scene is appended
to the collected list exactly when that scene's response JSON has
`success` set and a non-empty `image_data`, in which case the stored
entry is the data URI `data:<mime_type>;base64,<image_data>`; the
placeholder error message is set if and only if zero scenes were
collected. -/
theorem generateVideoScenes_collection (apiUrl genre : String)
    (schema : GameSchema) (prompt : String) (cd : Option String)
    (net : Nat → SceneOutcome) :
    (generateVideoScenes apiUrl genre schema prompt cd net).newScenes =
      (List.range 4).filterMap (fun i =>
        match net i with
        | SceneOutcome.throws => none
        | SceneOutcome.responds r =>
            if r.success = true ∧ r.image_data.getD "" ≠ "" then
              some ("data:" ++ r.mime_type ++ ";base64," ++
                r.image_data.getD "")
            else none) ∧
    ((generateVideoScenes apiUrl genre schema prompt cd net).error =
        some "Could not generate video scenes. Using placeholder." ↔
      (generateVideoScenes apiUrl genre schema prompt cd net).newScenes
        = []) := by
  unfold generateVideoScenes
  rw [show (scenePrompts schema prompt).length = 4 from rfl]
  refine ⟨?_, ?_⟩
  · rw [sceneRunOutcome_newScenes, foldl_videoSceneStep_snd]
    simp
  · rw [sceneRunOutcome_error_iff, sceneRunOutcome_newScenes]

/-- Counterexample to C7 as stated: with the same base URL "u", a run
of `GameVideoPreview`'s `generateVideoScenes` sends its requests to
`u/api/generate-video-scene` while `GamePreviewAnimation`'s
`generateBackgroundImage` sends its request to
`u/api/generate-preview-image` — two different endpoints. -/
theorem preview_components_endpoint_counterexample :
    (generateBackgroundImage "u" (some "shooter") (some sampleSchema)
        none false).map (fun r => r.url) =
      some "u/api/generate-preview-image" ∧
    (generateVideoScenes "u" "shooter" sampleSchema "p" none
        (fun _ => SceneOutcome.throws)).requests.map (fun r => r.url) =
      ["u/api/generate-video-scene", "u/api/generate-video-scene",
       "u/api/generate-video-scene", "u/api/generate-video-scene"] ∧
    ("u/api/generate-video-scene" : String) ≠
      "u/api/generate-preview-image" := by
  refine ⟨rfl, rfl, by decide⟩

/-- **C7 (amended).** Every HTTP request issued by the two game-preview
sub-components goes to a fixed endpoint under the same single API base
URL: `GameVideoPreview` always posts to
`API_URL + "/api/generate-video-scene"` and `GamePreviewAnimation`
always posts to `API_URL + "/api/generate-preview-image"`; the two
paths differ. -/
theorem preview_components_endpoints (apiUrl genre : String)
    (schema : GameSchema) (prompt : String) (cd : Option String)
    (net : Nat → SceneOutcome) (genreOpt : Option String)
    (schemaOpt : Option GameSchema) (bgImage : Option String)
    (isLoadingBg : Bool) :
    (∀ r ∈ (generateVideoScenes apiUrl genre schema prompt cd net).requests,
      r.url = apiUrl ++ "/api/generate-video-scene") ∧
    (∀ r, generateBackgroundImage apiUrl genreOpt schemaOpt bgImage
        isLoadingBg = some r →
      r.url = apiUrl ++ "/api/generate-preview-image") := by
  constructor
  · intro r hr
    unfold generateVideoScenes at hr
    rw [sceneRunOutcome_requests, foldl_videoSceneStep_fst] at hr
    simp only [List.nil_append, List.mem_map] at hr
    obtain ⟨i, -, hi⟩ := hr
    rw [← hi]
    simp [mkSceneRequest]
  · intro r hrr
    unfold generateBackgroundImage at hrr
    split at hrr
    · exact Option.noConfusion hrr
    · rw [← Option.some.injEq] at hrr
      cases hrr
      rfl

/-- Witness for C7 (amended): the first request of a concrete
`generateVideoScenes` run does go to the video-scene endpoint, and the
concrete `generateBackgroundImage` request to the preview-image one. -/
theorem preview_components_endpoints_witness :
    (mkSceneRequest "u" "shooter" sampleSchema "p" none 0).url =
        "u" ++ "/api/generate-video-scene" ∧
    ({ url := "u" ++ "/api/generate-preview-image",
       genre := "shooter",
       scene_description := "A ruined city",
       character_description := "A scarred veteran",
       style := "high-fidelity 3D realistic"} : PreviewImageRequest).url =
      "u" ++ "/api/generate-preview-image" :=
  ⟨(preview_components_endpoints "u" "shooter" sampleSchema "p" none
      (fun _ => SceneOutcome.throws) (some "shooter") (some sampleSchema)
      none false).1
      (mkSceneRequest "u" "shooter" sampleSchema "p" none 0) (by decide),
    (preview_components_endpoints "u" "shooter" sampleSchema "p" none
      (fun _ => SceneOutcome.throws) (some "shooter") (some sampleSchema)
      none false).2
      { url := "u" ++ "/api/generate-preview-image",
        genre := "shooter",
        scene_description := "A ruined city",
        character_description := "A scarred veteran",
        style := "high-fidelity 3D realistic"} (by decide)⟩

/-- Counterexample to C6 as stated: at a concrete tick with one hitting
bullet (so the hit really happened: the score rises by 150), the
explosion is created at `(enemyPos.x + 15, enemyPos.y + 15) = (235, 55)`
and not at the enemy's position `(220, 40)`. -/
theorem bulletTick_explosion_counterexample :
    (bulletTick 300 7 (fun _ => (0, 0)) hitSample).score = 150 ∧
    (bulletTick 300 7 (fun _ => (0, 0)) hitSample).explosions.map
      (fun e => (e.x, e.y)) = [((235 : ℚ), (55 : ℚ))] ∧
    (((235 : ℚ), (55 : ℚ)) ≠ ((220 : ℚ), (40 : ℚ))) := by
  refine ⟨?_, ?_, by norm_num⟩ <;>
    norm_num [bulletTick, moveBullet, inHitBox, createExplosionEntry,
      hitSample, List.filter]

/-- **C6 (amended).** At every bullet-update tick, for each moved
bullet lying inside the enemy's hit box (x in
(enemyPos.x - 20, enemyPos.x + 50), y in
(enemyPos.y - 10, enemyPos.y + 40)) the score increases by exactly 150
per such bullet and an explosion is created at the enemy's centre —
its position offset by (15, 15) — and when at least one bullet hits,
the enemy respawns at a position with x in [50, GAME_WIDTH - 50] and
y in [20, 60] (assuming a game area at least 100 wide, and
`Math.random()` draws in [0, 1)). -/
theorem bulletTick_hit_effects (gw : ℚ) (now : Nat) (rng : Nat → ℚ × ℚ)
    (st : PreviewTickState) (hgw : 100 ≤ gw)
    (hrng : ∀ k, 0 ≤ (rng k).1 ∧ (rng k).1 < 1 ∧
      0 ≤ (rng k).2 ∧ (rng k).2 < 1) :
    (bulletTick gw now rng st).score =
      st.score + 150 * (tickHits st).length ∧
    (bulletTick gw now rng st).explosions =
      st.explosions ++ (tickHits st).map (fun _ =>
        createExplosionEntry now (st.enemyPos.1 + 15) (st.enemyPos.2 + 15)) ∧
    ((tickHits st).length ≠ 0 →
      50 ≤ (bulletTick gw now rng st).enemyPos.1 ∧
      (bulletTick gw now rng st).enemyPos.1 ≤ gw - 50 ∧
      20 ≤ (bulletTick gw now rng st).enemyPos.2 ∧
      (bulletTick gw now rng st).enemyPos.2 ≤ 60) := by
  refine ⟨rfl, rfl, ?_⟩
  intro h
  have hpos : (bulletTick gw now rng st).enemyPos =
      if (tickHits st).length = 0 then st.enemyPos
      else respawnEnemy gw (rng ((tickHits st).length - 1)) := rfl
  rw [hpos, if_neg h]
  obtain ⟨h1, h2, h3, h4⟩ := hrng ((tickHits st).length - 1)
  unfold respawnEnemy
  dsimp only
  refine ⟨?_, ?_, ?_, ?_⟩
  · nlinarith [mul_nonneg h1 (by linarith : (0 : ℚ) ≤ gw - 100)]
  · nlinarith [mul_nonneg (by linarith : (0 : ℚ) ≤ 1 -
      (rng ((tickHits st).length - 1)).1)
      (by linarith : (0 : ℚ) ≤ gw - 100)]
  · nlinarith
  · nlinarith

/-- Witness for C6 (amended) at the concrete hitting tick. -/
theorem bulletTick_hit_effects_witness :
    ((100 : ℚ) ≤ 300 ∧
      (∀ k : Nat,
        0 ≤ ((fun _ : Nat => ((1 : ℚ)/2, (1 : ℚ)/2)) k).1 ∧
        ((fun _ : Nat => ((1 : ℚ)/2, (1 : ℚ)/2)) k).1 < 1 ∧
        0 ≤ ((fun _ : Nat => ((1 : ℚ)/2, (1 : ℚ)/2)) k).2 ∧
        ((fun _ : Nat => ((1 : ℚ)/2, (1 : ℚ)/2)) k).2 < 1)) ∧
    ((bulletTick 300 7 (fun _ : Nat => ((1 : ℚ)/2, (1 : ℚ)/2))
        hitSample).score =
      hitSample.score + 150 * (tickHits hitSample).length ∧
    (bulletTick 300 7 (fun _ : Nat => ((1 : ℚ)/2, (1 : ℚ)/2))
        hitSample).explosions =
      hitSample.explosions ++ (tickHits hitSample).map (fun _ =>
        createExplosionEntry 7 (hitSample.enemyPos.1 + 15)
          (hitSample.enemyPos.2 + 15)) ∧
    ((tickHits hitSample).length ≠ 0 →
      50 ≤ (bulletTick 300 7 (fun _ : Nat => ((1 : ℚ)/2, (1 : ℚ)/2))
          hitSample).enemyPos.1 ∧
      (bulletTick 300 7 (fun _ : Nat => ((1 : ℚ)/2, (1 : ℚ)/2))
          hitSample).enemyPos.1 ≤ 300 - 50 ∧
      20 ≤ (bulletTick 300 7 (fun _ : Nat => ((1 : ℚ)/2, (1 : ℚ)/2))
          hitSample).enemyPos.2 ∧
      (bulletTick 300 7 (fun _ : Nat => ((1 : ℚ)/2, (1 : ℚ)/2))
          hitSample).enemyPos.2 ≤ 60)) :=
  ⟨⟨by norm_num, fun k => by norm_num⟩,
    bulletTick_hit_effects 300 7 (fun _ : Nat => ((1 : ℚ)/2, (1 : ℚ)/2))
      hitSample (by norm_num) (fun k => by norm_num)⟩

/-- The initial positions satisfy the arena invariant on any game area
at least 280 wide (so that the enemy's initial x = 220 fits under
`GAME_WIDTH - 60` and the character's 140 under `GAME_WIDTH - 50`). -/
theorem arenaInv_init (gw : ℚ) (hgw : 280 ≤ gw) : arenaInv gw arenaInit := by
  unfold arenaInv arenaInit
  dsimp only
  refine ⟨by norm_num, by linarith, by norm_num, by norm_num,
    by norm_num, by linarith, by norm_num, by norm_num⟩

/-- Every arena event — any d-pad press (boosting or not) and any
enemy tick with any wave term — preserves the arena invariant. -/
theorem arenaStep_preserves (gw : ℚ) (hgw : 280 ≤ gw) (st : ArenaState)
    (h : arenaInv gw st) (e : ArenaEvent) :
    arenaInv gw (arenaStep gw st e) := by
  obtain ⟨h1, h2, h3, h4, h5, h6, h7, h8⟩ := h
  cases e with
  | dpad d b =>
      unfold arenaStep handleDpadPress arenaInv
      dsimp only
      split_ifs
      all_goals try dsimp only
      all_goals refine ⟨?_, ?_, ?_, ?_, ?_, ?_, ?_, ?_⟩
      all_goals
        first
          | assumption
          | (simp only [le_max_iff, max_le_iff, le_min_iff, min_le_iff]
             constructor <;> linarith)
  | enemyTick w =>
      unfold arenaStep enemyTickStep arenaInv
      dsimp only
      split_ifs
      all_goals try dsimp only
      all_goals refine ⟨?_, ?_, ?_, ?_, ?_, ?_, ?_, ?_⟩
      all_goals
        first
          | assumption
          | linarith
          | (simp only [le_max_iff, max_le_iff, le_min_iff, min_le_iff]
             constructor <;>
               first
                 | linarith
                 | (left ; linarith))

/-- The arena invariant is preserved along any event sequence. -/
theorem foldl_arenaStep_inv (gw : ℚ) (hgw : 280 ≤ gw)
    (events : List ArenaEvent) (st : ArenaState) (h : arenaInv gw st) :
    arenaInv gw (events.foldl (arenaStep gw) st) := by
  induction events generalizing st with
  | nil => exact h
  | cons e events ih =>
      exact ih _ (arenaStep_preserves gw hgw st h e)

/-- **C9.** For every sequence of d-pad presses and enemy-movement
ticks starting from the initial positions (character at (140, 120),
enemy at (220, 40)), the character's position stays within
x in [20, GAME_WIDTH - 50] and y in [40, GAME_HEIGHT - 60], and the
enemy's position stays within x in [40, GAME_WIDTH - 60] and
y in [20, 80] (on a game area at least 280 wide, which already the
initial positions require). -/
theorem arena_positions_bounded (gw : ℚ) (hgw : 280 ≤ gw)
    (events : List ArenaEvent) :
    20 ≤ (arenaRun gw events).charX ∧
    (arenaRun gw events).charX ≤ gw - 50 ∧
    40 ≤ (arenaRun gw events).charY ∧
    (arenaRun gw events).charY ≤ 220 - 60 ∧
    40 ≤ (arenaRun gw events).enemyX ∧
    (arenaRun gw events).enemyX ≤ gw - 60 ∧
    20 ≤ (arenaRun gw events).enemyY ∧
    (arenaRun gw events).enemyY ≤ 80 := by
  have h := foldl_arenaStep_inv gw hgw events arenaInit
    (arenaInv_init gw hgw)
  obtain ⟨h1, h2, h3, h4, h5, h6, h7, h8⟩ := h
  exact ⟨h1, h2, h3,
    by rw [show (220 : ℚ) - 60 = 160 from by norm_num]; exact h4,
    h5, h6, h7, h8⟩

/-- Witness for C9: a concrete boosted walk and a wavy enemy tick on a
320-wide area. -/
theorem arena_positions_bounded_witness :
    (280 : ℚ) ≤ 320 ∧
    (20 ≤ (arenaRun 320 [ArenaEvent.dpad "up" true,
        ArenaEvent.enemyTick ((1 : ℚ)/4)]).charX ∧
      (arenaRun 320 [ArenaEvent.dpad "up" true,
        ArenaEvent.enemyTick ((1 : ℚ)/4)]).charX ≤ 320 - 50 ∧
      40 ≤ (arenaRun 320 [ArenaEvent.dpad "up" true,
        ArenaEvent.enemyTick ((1 : ℚ)/4)]).charY ∧
      (arenaRun 320 [ArenaEvent.dpad "up" true,
        ArenaEvent.enemyTick ((1 : ℚ)/4)]).charY ≤ 220 - 60 ∧
      40 ≤ (arenaRun 320 [ArenaEvent.dpad "up" true,
        ArenaEvent.enemyTick ((1 : ℚ)/4)]).enemyX ∧
      (arenaRun 320 [ArenaEvent.dpad "up" true,
        ArenaEvent.enemyTick ((1 : ℚ)/4)]).enemyX ≤ 320 - 60 ∧
      20 ≤ (arenaRun 320 [ArenaEvent.dpad "up" true,
        ArenaEvent.enemyTick ((1 : ℚ)/4)]).enemyY ∧
      (arenaRun 320 [ArenaEvent.dpad "up" true,
        ArenaEvent.enemyTick ((1 : ℚ)/4)]).enemyY ≤ 80) :=
  ⟨by norm_num,
    arena_positions_bounded 320 (by norm_num)
      [ArenaEvent.dpad "up" true, ArenaEvent.enemyTick ((1 : ℚ)/4)]⟩

/-- **C8** is violated by the code: `generateVideoScenes` never resets
`currentScene` and discards the cleanup closure `startSceneRotation`
returns, so no interval is ever cleared. Concretely: a first generation
collects two scenes, one rotation tick advances `currentScene` to 1,
and a user-triggered regeneration then installs a one-element scene
list — leaving `currentScene = 1` with `sceneImages.length = 1`, so the
render of `sceneImages[currentScene]` indexes out of bounds while a
scene image is being displayed. -/
theorem currentScene_out_of_bounds_bug :
    0 < (previewRun [PreviewEvent.generationDone ["s1", "s2"],
      PreviewEvent.rotateTick 0,
      PreviewEvent.generationDone ["t1"]]).sceneImages.length ∧
    ¬ ((previewRun [PreviewEvent.generationDone ["s1", "s2"],
        PreviewEvent.rotateTick 0,
        PreviewEvent.generationDone ["t1"]]).currentScene <
      (previewRun [PreviewEvent.generationDone ["s1", "s2"],
        PreviewEvent.rotateTick 0,
        PreviewEvent.generationDone ["t1"]]).sceneImages.length) := by
  decide

end AIVG
